import Mathlib

/-!
# Verification of the railradar-api service (src/main.py)

A shallow embedding of the single-module FastAPI service in `src/main.py`.
JSON values are modelled by an inductive type; Python dictionaries coming
from parsed JSON bodies are association lists with unique keys (lookup
takes the first matching key, which coincides with dict semantics).
Python exceptions are modelled with `Except Unit` (an uncaught exception
inside the request handler surfaces as `HandlerResult.fault`).
The two outbound HTTP fetches are modelled by an oracle
`fetch : String → Except (Option UpstreamFailure) JsonDict` giving, for a
URL path, the behaviour of `_fetch_json` on that path.
-/

/-- A JSON value, as produced by `response.json()`.  Numbers are modelled
as integers (no claim depends on non-integral numbers). -/
inductive Json where
  | null
  | bool (b : Bool)
  | num (n : Int)
  | str (s : String)
  | arr (elems : List Json)
  | obj (fields : List (String × Json))

/-- `JsonDict` models the Python type alias `JsonDict = dict[str, Any]`
for dictionaries obtained from parsed JSON (keys unique). -/
abbrev JsonDict := List (String × Json)

/-- Python `d.get(k)` distinguished form: `none` when the key is absent. -/
def dictGet (d : JsonDict) (k : String) : Option Json :=
  (d.find? (fun kv => kv.1 == k)).map (fun kv => kv.2)

/-- Python `d.get(k)`: `None` (i.e. `Json.null`) when the key is absent. -/
def pyGet (d : JsonDict) (k : String) : Json :=
  (dictGet d k).getD Json.null

/-- Python `d.get(k, default)`. -/
def pyGetD (d : JsonDict) (k : String) (dflt : Json) : Json :=
  (dictGet d k).getD dflt

/-- Python truthiness of a JSON-derived value (`bool(v)`). -/
def pyFalsy : Json → Bool
  | Json.null => true
  | Json.bool b => !b
  | Json.num n => n == 0
  | Json.str s => s == ""
  | Json.arr l => l.isEmpty
  | Json.obj f => f.isEmpty

/-- Python `a or b` on JSON-derived values. -/
def pyOr (a b : Json) : Json :=
  if pyFalsy a then b else a

/-- Python `repr` of a JSON-derived value (container rendering follows
CPython's default single-quote style; claims only evaluate it on
scalars and strings). -/
def pyRepr : Json → String
  | Json.null => "None"
  | Json.bool true => "True"
  | Json.bool false => "False"
  | Json.num n => toString n
  | Json.str s => "\x27" ++ s ++ "\x27"
  | Json.arr l =>
      "[" ++ String.intercalate ", " (l.attach.map (fun x => pyRepr x.1)) ++ "]"
  | Json.obj f =>
      "\x7b" ++
        String.intercalate ", "
          (f.attach.map (fun kv => "\x27" ++ kv.1.1 ++ "\x27: " ++ pyRepr kv.1.2)) ++
      "\x7d"
decreasing_by
  all_goals simp_wf
  · have h1 := List.sizeOf_lt_of_mem x.2
    omega
  · obtain ⟨⟨k, v⟩, hm⟩ := kv
    have h1 := List.sizeOf_lt_of_mem hm
    simp at h1 ⊢
    omega

/-- Python `str(v)` of a JSON-derived value. -/
def pyStr : Json → String
  | Json.str s => s
  | j => pyRepr j

/-! ## Timestamps: model of `datetime.fromisoformat` (`_to_datetime`)

The parser covers the common ISO-8601 profile used by the upstream feeds:
`YYYY-MM-DD[T or space HH[:MM[:SS[.ffffff]]]][Z or +-HH[:MM]]`.
A parsed datetime is represented by its wall-clock reading in microseconds
since the Unix epoch plus an optional UTC offset (in microseconds);
`none` offset means a naive datetime. -/

structure PyDateTime where
  localUs : Int
  offsetUs : Option Int
deriving DecidableEq

/-- Value of a decimal digit character. -/
def digitVal (c : Char) : Option Nat :=
  if c.isDigit then some (c.toNat - 48) else none

/-- Read exactly `k` decimal digits, most significant first. -/
def readFixedNat : Nat → Nat → List Char → Option (Nat × List Char)
  | 0, acc, cs => some (acc, cs)
  | k + 1, acc, c :: cs =>
      match digitVal c with
      | some d => readFixedNat k (acc * 10 + d) cs
      | none => none
  | _ + 1, _, [] => none

/-- Expect one specific character. -/
def expectChar (c : Char) : List Char → Option (List Char)
  | x :: rest => if x = c then some rest else none
  | [] => none

/-- Proleptic-Gregorian leap year (as in Python's `calendar`). -/
def isLeap (y : Nat) : Bool :=
  (y % 4 == 0 && y % 100 != 0) || y % 400 == 0

/-- Number of days in a month. -/
def daysInMonth (y m : Nat) : Nat :=
  if m = 2 then (if isLeap y then 29 else 28)
  else if m = 4 ∨ m = 6 ∨ m = 9 ∨ m = 11 then 30
  else 31

/-- Days from 1970-01-01 to year `y`, month `m`, day `d`
(standard civil-calendar conversion, exact for the proleptic Gregorian
calendar used by `datetime`). -/
def daysFromCivil (y m d : Int) : Int :=
  let yAdj := if m ≤ 2 then y - 1 else y
  let era := Int.fdiv yAdj 400
  let yoe := yAdj - era * 400
  let mp := Int.emod (m + 9) 12
  let doy := Int.fdiv (153 * mp + 2) 5 + d - 1
  let doe := yoe * 365 + Int.fdiv yoe 4 - Int.fdiv yoe 100 + doy
  era * 146097 + doe - 719468

/-- Read a fractional-seconds field of 1 to 6 digits, scaled to
microseconds. -/
def parseFrac (cs : List Char) : Option (Nat × List Char) :=
  match cs with
  | c :: _ =>
    if c.isDigit then
      let digits := cs.takeWhile Char.isDigit
      let rest := cs.dropWhile Char.isDigit
      if digits.length ≤ 6 then
        let v := digits.foldl (fun acc c => acc * 10 + (c.toNat - 48)) 0
        some (v * 10 ^ (6 - digits.length), rest)
      else none
    else none
  | [] => none

/-- Parse the calendar-date part `YYYY-MM-DD`. -/
def parseDate (cs : List Char) : Option (Nat × Nat × Nat × List Char) := do
  let (y, cs) ← readFixedNat 4 0 cs
  let cs ← expectChar '-' cs
  let (m, cs) ← readFixedNat 2 0 cs
  let cs ← expectChar '-' cs
  let (d, cs) ← readFixedNat 2 0 cs
  pure (y, m, d, cs)

/-- Parse the time-of-day part `HH[:MM[:SS[.ffffff]]]`; returns
hours, minutes, seconds, microseconds. -/
def parseTime (cs : List Char) : Option (Nat × Nat × Nat × Nat × List Char) := do
  let (h, cs) ← readFixedNat 2 0 cs
  match expectChar ':' cs with
  | none => pure (h, 0, 0, 0, cs)
  | some cs => do
    let (mi, cs) ← readFixedNat 2 0 cs
    match expectChar ':' cs with
    | none => pure (h, mi, 0, 0, cs)
    | some cs => do
      let (se, cs) ← readFixedNat 2 0 cs
      match cs with
      | '.' :: cs2 => do
          let (us, cs3) ← parseFrac cs2
          pure (h, mi, se, us, cs3)
      | ',' :: cs2 => do
          let (us, cs3) ← parseFrac cs2
          pure (h, mi, se, us, cs3)
      | _ => pure (h, mi, se, 0, cs)

/-- Parse a UTC-offset magnitude `HH[[:]MM]`, in microseconds. -/
def parseOffsetMag (cs : List Char) : Option (Int × List Char) := do
  let (hh, cs) ← readFixedNat 2 0 cs
  let (mm, cs) ←
    match cs with
    | ':' :: cs2 => readFixedNat 2 0 cs2
    | c :: _ => if c.isDigit then readFixedNat 2 0 cs else pure (0, cs)
    | [] => pure (0, cs)
  if hh ≤ 23 ∧ mm ≤ 59 then
    pure (((hh * 3600 + mm * 60 : Nat) : Int) * 1000000, cs)
  else none

/-- Model of `datetime.fromisoformat` on the ISO-8601 profile described
above; `none` models a raised `ValueError`.  Range checks (month, day,
hour, minute, second) mirror the constructor checks of `datetime`. -/
def parseIso (s : String) : Option PyDateTime := do
  let (y, m, d, cs) ← parseDate s.data
  let (h, mi, se, us, cs) ←
    match cs with
    | [] => pure (0, 0, 0, 0, ([] : List Char))
    | 'T' :: cs2 => parseTime cs2
    | ' ' :: cs2 => parseTime cs2
    | _ => none
  let (off, cs) ←
    match cs with
    | [] => pure ((none : Option Int), ([] : List Char))
    | 'Z' :: cs2 => pure (some (0 : Int), cs2)
    | 'z' :: cs2 => pure (some (0 : Int), cs2)
    | '+' :: cs2 => do
        let (v, r) ← parseOffsetMag cs2
        pure (some v, r)
    | '-' :: cs2 => do
        let (v, r) ← parseOffsetMag cs2
        pure (some (-v), r)
    | _ => none
  if cs = [] ∧ 1 ≤ y ∧ y ≤ 9999 ∧ 1 ≤ m ∧ m ≤ 12 ∧ 1 ≤ d ∧ d ≤ daysInMonth y m ∧
      h ≤ 23 ∧ mi ≤ 59 ∧ se ≤ 59 then
    pure { localUs := daysFromCivil (y : Int) (m : Int) (d : Int) * 86400000000 +
                      ((h * 3600 + mi * 60 + se : Nat) : Int) * 1000000 + (us : Nat),
           offsetUs := off }
  else none

/-- The instant of a parsed timestamp in microseconds since the epoch,
after `_to_datetime`'s normalization (a naive value is reinterpreted as
UTC, an aware value keeps its own offset).  Subtraction of the aware
datetimes in `_compute_delay_minutes` is exactly subtraction of these
instants. -/
def utcInstant (dt : PyDateTime) : Int :=
  dt.localUs - dt.offsetUs.getD 0

/-- `_to_datetime` from src/main.py (lines 31-37): falsy values (None,
empty string) give `None`; a truthy string is parsed (`ValueError` on
failure); a truthy non-string raises `TypeError`.  The result is the
UTC instant of the (normalized, hence always aware) datetime. -/
def to_datetime (value : Json) : Except Unit (Option Int) :=
  if pyFalsy value then Except.ok none
  else
    match value with
    | Json.str s =>
        match parseIso s with
        | some dt => Except.ok (some (utcInstant dt))
        | none => Except.error ()
    | _ => Except.error ()

/-- `_compute_delay_minutes` from src/main.py (lines 40-51).  The Python
expression `int((a - b).total_seconds() // 60)` is floor division of the
microsecond difference by 60 seconds (modelled exactly; the float
`total_seconds` is exact for every realistic difference). -/
def compute_delay_minutes (station : JsonDict) : Except Unit Int :=
  match to_datetime (pyGet station "dep"), to_datetime (pyGet station "schDep") with
  | Except.error e, _ => Except.error e
  | _, Except.error e => Except.error e
  | Except.ok depTime, Except.ok schDepTime =>
    match depTime, schDepTime with
    | some d, some s => Except.ok (Int.fdiv (d - s) 60000000)
    | _, _ =>
      match to_datetime (pyGet station "arr"), to_datetime (pyGet station "schArr") with
      | Except.error e, _ => Except.error e
      | _, Except.error e => Except.error e
      | Except.ok arrTime, Except.ok schArrTime =>
        match arrTime, schArrTime with
        | some a, some s => Except.ok (Int.fdiv (a - s) 60000000)
        | _, _ => Except.ok 0

/-! ## Reference definition of the delay (spec, section 4.2)

Transcribed from the spec's words, to be compared with
`compute_delay_minutes`: a timestamp is *present* when it is a
non-missing, non-empty string; a present value is parsed as ISO-8601 with
a missing offset interpreted as UTC.  Priority: departure pair, then
arrival pair, else 0, with `floor((actual - scheduled) / 60 s)`. -/

/-- Spec reference: the timestamp value (UTC instant in microseconds) of
field `key` of a station visit, or `none` when missing or empty. -/
def specTimestampValue (station : JsonDict) (key : String) : Option Int :=
  match dictGet station key with
  | some (Json.str s) =>
      if s = "" then none else (parseIso s).map utcInstant
  | _ => none

/-- Spec reference definition of `computeDelayMinutes` (spec section 4.2). -/
def specDelayMinutes (station : JsonDict) : Int :=
  match specTimestampValue station "dep", specTimestampValue station "schDep" with
  | some a, some b => Int.fdiv (a - b) 60000000
  | _, _ =>
    match specTimestampValue station "arr", specTimestampValue station "schArr" with
    | some a, some b => Int.fdiv (a - b) 60000000
    | _, _ => 0

/-- A timestamp field is well formed when it is absent, null, or a string
that is empty or a valid ISO-8601 timestamp (the domain on which the
spec's reference definition is defined). -/
def tsFieldWF (station : JsonDict) (key : String) : Bool :=
  match dictGet station key with
  | none => true
  | some Json.null => true
  | some (Json.str s) => s == "" || (parseIso s).isSome
  | some _ => false

/-- All four timestamp fields of a station visit are well formed. -/
def visitWF (station : JsonDict) : Bool :=
  tsFieldWF station "dep" && tsFieldWF station "schDep" &&
  tsFieldWF station "arr" && tsFieldWF station "schArr"

/-! ## Upstream client: `_fetch_json` (src/main.py lines 54-71)

One loop iteration per configured base URL, in declared order
(`SOURCE_BASE_URLS = [primary, fallback]`).  A `Candidate` is the outcome
of the GET on one base URL: `failure` covers a transport error, a
non-success HTTP status (`raise_for_status`) and an invalid JSON body
(all raise a `requests.RequestException` and are caught uniformly);
`payload j` is a successfully parsed JSON body `j` (possibly not an
object).  The raised 502 carries the last underlying failure. -/

inductive Candidate where
  | failure
  | payload (j : Json)

/-- The `last_error` recorded for a failing candidate at position `index`:
either the caught `requests` exception, or the synthesized
"Unexpected upstream payload shape" exception for a non-object body. -/
inductive UpstreamFailure where
  | requestFailed (index : Nat)
  | unexpectedShape (index : Nat)
deriving DecidableEq

/-- The loop of `_fetch_json`, threading the `last_error` variable. -/
def fetch_json_go : List Candidate → Nat → Option UpstreamFailure →
    Except (Option UpstreamFailure) JsonDict
  | [], _, lastError => Except.error lastError
  | c :: rest, i, _lastError =>
    match c with
    | Candidate.payload (Json.obj fields) => Except.ok fields
    | Candidate.payload _ => fetch_json_go rest (i + 1) (some (UpstreamFailure.unexpectedShape i))
    | Candidate.failure => fetch_json_go rest (i + 1) (some (UpstreamFailure.requestFailed i))

/-- `_fetch_json`, given the outcome of the GET on each configured base
URL ( `[primary, fallback]` in the deployed configuration).
`Except.error e` models the raised HTTPException 502 whose cause is `e`. -/
def fetch_json (candidates : List Candidate) : Except (Option UpstreamFailure) JsonDict :=
  fetch_json_go candidates 0 none

/-- A candidate fails when it is a transport/status/parse failure or its
payload is not a JSON object. -/
def candFails : Candidate → Bool
  | Candidate.failure => true
  | Candidate.payload (Json.obj _) => false
  | Candidate.payload _ => true

/-- The `last_error` value a failing candidate at position `i` leaves
behind. -/
def candFailure (c : Candidate) (i : Nat) : UpstreamFailure :=
  match c with
  | Candidate.failure => UpstreamFailure.requestFailed i
  | Candidate.payload _ => UpstreamFailure.unexpectedShape i

/-! ## Request handler: `get_train_station_info` (src/main.py lines 93-170) -/

/-- The behaviour of `_fetch_json` as seen by the handler: for a URL path,
either a JSON dictionary or the 502 error.  (`_fetch_json` is annotated
and guaranteed to return a `dict`.) -/
abbrev Fetch := String → Except (Option UpstreamFailure) JsonDict

/-- The outcome of one request as observed by the client: a 200 response,
an `HTTPException` with status and detail, or an uncaught Python
exception (which FastAPI surfaces as a 500 Internal Server Error —
not a documented status). -/
structure TrainStationResponse where
  trainNumber : String
  origin : String
  destination : String
  currentStation : String
  queriedStation : String
  delayMinutes : Int
  status : String
  asOf : String
deriving DecidableEq

inductive HandlerResult where
  | ok (r : TrainStationResponse)
  | httpError (status : Nat) (detail : String)
  | fault
deriving DecidableEq

/-- ASCII uppercase of one character.  (Python `str.upper` is
Unicode-aware, but the station code reaching the handler is validated
against `^[A-Za-z]{3}$`, on which the two agree.) -/
def asciiUpperChar (c : Char) : Char :=
  if 97 ≤ c.toNat ∧ c.toNat ≤ 122 then Char.ofNat (c.toNat - 32) else c

/-- Python `s.upper()` on ASCII strings (`station_code.upper()`, line 109). -/
def pyUpper (s : String) : String :=
  String.mk (s.data.map asciiUpperChar)

/-- Python `s.split("-", maxsplit=1)[0]`: the segment before the first
`"-"` (the whole string when there is none). -/
def splitHead (s : String) : String :=
  String.mk (s.data.takeWhile (fun c => c ≠ '-'))

/-- The generator expression of lines 120-127: the first element of
`train_ids` that is a string whose pre-dash segment equals
`train_number`. -/
def findMatchedTrainId (train_ids : List Json) (train_number : String) : Option String :=
  train_ids.findSome? fun tid =>
    match tid with
    | Json.str s => if splitHead s = train_number then some s else none
    | _ => none

/-- `_find_train_entry` (lines 74-78): the detail payload is indexed by
the *requested train number*; the first entry is returned when that key
holds a non-empty list. -/
def find_train_entry (train_payload : JsonDict) (train_number : String) : Option Json :=
  match dictGet train_payload train_number with
  | some (Json.arr (e :: _)) => some e
  | _ => none

/-- Python iteration over a JSON-derived value (`for station in stations`
on line 146): lists yield elements, strings yield 1-character strings,
dicts yield keys; other values raise `TypeError`. -/
def pyIter : Json → Except Unit (List Json)
  | Json.arr l => Except.ok l
  | Json.str s => Except.ok (s.data.map (fun c => Json.str (String.mk [c])))
  | Json.obj f => Except.ok (f.map (fun kv => Json.str kv.1))
  | _ => Except.error ()

/-- The generator expression of lines 143-150: the first element that is
a dict whose `"code"` value equals `normalized_station`.  (Python value
equality with a string holds exactly for that same string.) -/
def findStationEntry (stations : List Json) (normalized_station : String) : Option JsonDict :=
  stations.findSome? fun st =>
    match st with
    | Json.obj fields =>
        match pyGet fields "code" with
        | Json.str s => if s = normalized_station then some fields else none
        | _ => none
    | _ => none

/-- Lines 157-159: `updatedAt or lastValTS`, falling back to the current
instant (`now`) when the result is not a string. -/
def asOfValue (train_entry : JsonDict) (now : String) : String :=
  match pyOr (pyGet train_entry "updatedAt") (pyGet train_entry "lastValTS") with
  | Json.str s => s
  | _ => now

/-- The handler body (lines 93-170), after FastAPI path-parameter
validation.  `fetch` is the behaviour of `_fetch_json`; `now` is the
ISO rendering of `datetime.now(timezone.utc)` at response-construction
time.  `fault` marks the places where the Python code can raise an
uncaught exception: `train_entry.get` on a non-dict entry (line 142),
iterating a non-iterable `stations` value (line 146), and
`datetime.fromisoformat` on a malformed or non-string truthy timestamp
(line 34, reached from line 167). -/
def get_train_station_info (train_number station_code : String)
    (fetch : Fetch) (now : String) : HandlerResult :=
  match fetch ("/v3/stations/" ++ pyUpper station_code) with
  | Except.error _ => HandlerResult.httpError 502 "Upstream train status providers are unavailable"
  | Except.ok station_payload =>
    match pyGet station_payload (pyUpper station_code) with
    | Json.obj station_data =>
      match pyGetD station_data "trains" (Json.arr []) with
      | Json.arr train_ids =>
        match findMatchedTrainId train_ids train_number with
        | none =>
            HandlerResult.httpError 404
              ("Train " ++ train_number ++ " not found for station " ++ pyUpper station_code)
        | some matched_train_id =>
          match fetch ("/v3/trains/" ++ matched_train_id) with
          | Except.error _ =>
              HandlerResult.httpError 502 "Upstream train status providers are unavailable"
          | Except.ok train_payload =>
            match find_train_entry train_payload train_number with
            | none =>
                HandlerResult.httpError 404
                  ("Train " ++ train_number ++ " has no active detail feed")
            | some (Json.obj train_entry) =>
              match pyIter (pyGetD train_entry "stations" (Json.arr [])) with
              | Except.error _ => HandlerResult.fault
              | Except.ok stations =>
                match findStationEntry stations (pyUpper station_code) with
                | none =>
                    HandlerResult.httpError 404
                      ("Station " ++ pyUpper station_code ++
                       " is not in active itinerary for train " ++ train_number)
                | some station_entry =>
                  match compute_delay_minutes station_entry with
                  | Except.error _ => HandlerResult.fault
                  | Except.ok delay =>
                      HandlerResult.ok
                        { trainNumber :=
                            pyStr (pyOr (pyGet train_entry "trainNumRaw") (Json.str train_number)),
                          origin := pyStr (pyOr (pyGet train_entry "origCode") (Json.str "")),
                          destination := pyStr (pyOr (pyGet train_entry "destCode") (Json.str "")),
                          currentStation := pyUpper station_code,
                          queriedStation := pyUpper station_code,
                          delayMinutes := delay,
                          status := pyStr (pyOr (pyGet station_entry "status") (Json.str "Unknown")),
                          asOf := asOfValue train_entry now }
            | some _ => HandlerResult.fault
      | _ => HandlerResult.httpError 404 "Station has no active train data"
    | _ => HandlerResult.httpError 404 "Station not found"

/-- The regex character class `\d` (restricted to ASCII digits). -/
def isDigitChar (c : Char) : Bool :=
  decide (48 ≤ c.toNat ∧ c.toNat ≤ 57)

/-- The regex character class `[A-Za-z]`. -/
def isLetterChar (c : Char) : Bool :=
  decide ((65 ≤ c.toNat ∧ c.toNat ≤ 90) ∨ (97 ≤ c.toNat ∧ c.toNat ≤ 122))

/-- FastAPI path-parameter validation of `TRAIN_NUMBER_PATTERN`
(`^\d{1,5}$`; the model restricts `\d` to ASCII digits). -/
def validTrainNumber (s : String) : Bool :=
  decide (1 ≤ s.data.length) && decide (s.data.length ≤ 5) && s.data.all isDigitChar

/-- FastAPI path-parameter validation of `STATION_CODE_PATTERN`
(`^[A-Za-z]{3}$`). -/
def validStationCode (s : String) : Bool :=
  decide (s.data.length = 3) && s.data.all isLetterChar

/-- The routed endpoint: FastAPI validates both path parameters against
their patterns before invoking the handler; a violation produces a
client-error response (FastAPI's 422 Unprocessable Entity) without
running the handler. -/
def route (train_number station_code : String) (fetch : Fetch) (now : String) : HandlerResult :=
  if validTrainNumber train_number && validStationCode station_code then
    get_train_station_info train_number station_code fetch now
  else
    HandlerResult.httpError 422 "path parameter failed pattern validation"

/-! ## Concrete fetch behaviours used in examples and witnesses -/

/-- A fetch behaviour answering the station-listing path with `listing`
and every other path (in particular the train-detail path) with
`detail`. -/
def pipelineFetch (stationsPath : String)
    (listing detail : Except (Option UpstreamFailure) JsonDict) : Fetch :=
  fun p => if p = stationsPath then listing else detail

/-- Station listing for `WAS` with the single train identifier
`"123-1"` (the end-to-end scenario of spec section 8). -/
def sampleListing : JsonDict :=
  [("WAS", Json.obj [("trains", Json.arr [Json.str "123-1"])])]

/-- Detail entry of the end-to-end scenario of spec section 8. -/
def sampleEntry : Json :=
  Json.obj
    [("trainNumRaw", Json.str "123"),
     ("origCode", Json.str "WAS"),
     ("destCode", Json.str "BOS"),
     ("updatedAt", Json.str "2024-01-01T10:06:00Z"),
     ("stations", Json.arr
       [Json.obj
         [("code", Json.str "WAS"),
          ("status", Json.str "Departed"),
          ("dep", Json.str "2024-01-01T10:05:00Z"),
          ("schDep", Json.str "2024-01-01T10:00:00Z")]])]

/-- Train-detail payload, keyed by the train number `"123"`. -/
def sampleDetail : JsonDict := [("123", Json.arr [sampleEntry])]

/-- The fetch behaviour of the end-to-end scenario. -/
def sampleFetch : Fetch :=
  pipelineFetch "/v3/stations/WAS" (Except.ok sampleListing) (Except.ok sampleDetail)

/-- Fetch behaviour exhibiting the unhandled fault of C6: the upstream
data is a perfectly plausible JSON shape (station listing for WAS with
train id 123-1, detail payload for train 123 whose WAS visit carries a
malformed `dep` timestamp), yet the handler raises an uncaught
`ValueError` from `datetime.fromisoformat`. -/
def malformedTimestampFetch : Fetch :=
  pipelineFetch "/v3/stations/WAS" (Except.ok sampleListing)
    (Except.ok
      [("123", Json.arr
        [Json.obj
          [("stations", Json.arr
            [Json.obj
              [("code", Json.str "WAS"),
               ("dep", Json.str "garbage"),
               ("schDep", Json.str "2024-01-01T10:00:00Z")]])]])])

/-- A detail payload keyed (wrongly, per the spec's claim) by the train
*identifier* `"123-1"` rather than by the train number `"123"`. -/
def idKeyedDetail : JsonDict := [("123-1", Json.arr [sampleEntry])]

/-- Fetch behaviour for the C8 counterexample: station listing matches
train id `"123-1"`, and the detail payload is keyed by that identifier. -/
def idKeyedDetailFetch : Fetch :=
  pipelineFetch "/v3/stations/WAS" (Except.ok sampleListing) (Except.ok idKeyedDetail)

/-- First character of a string. -/
def firstChar (s : String) : Option Char := s.data.head?

/-- The response of the end-to-end scenario (spec section 8). -/
def sampleResponse : TrainStationResponse :=
  { trainNumber := "123", origin := "WAS", destination := "BOS",
    currentStation := "WAS", queriedStation := "WAS",
    delayMinutes := 5, status := "Departed", asOf := "2024-01-01T10:06:00Z" }

/-- Fetch behaviour whose detail entry and station visit omit every
optional field (origCode, destCode, trainNumRaw, status, updatedAt,
lastValTS, timestamps): exercises all the success-path defaults. -/
def defaultsFetch : Fetch :=
  pipelineFetch "/v3/stations/WAS" (Except.ok sampleListing)
    (Except.ok
      [("123", Json.arr
        [Json.obj
          [("stations", Json.arr [Json.obj [("code", Json.str "WAS")]])]])])

/-- The response produced by `defaultsFetch`: every default is taken. -/
def defaultsResponse : TrainStationResponse :=
  { trainNumber := "123", origin := "", destination := "",
    currentStation := "WAS", queriedStation := "WAS",
    delayMinutes := 0, status := "Unknown", asOf := "T0" }

example :
    route "123" "was" sampleFetch "T0" =
      HandlerResult.ok
        { trainNumber := "123", origin := "WAS", destination := "BOS",
          currentStation := "WAS", queriedStation := "WAS",
          delayMinutes := 5, status := "Departed",
          asOf := "2024-01-01T10:06:00Z" } := rfl

example : parseIso "2024-01-01T10:05:00Z" = some { localUs := 1704103500000000, offsetUs := some 0 } := by decide
example : compute_delay_minutes [("dep", Json.str "2024-01-01T09:59:59"), ("schDep", Json.str "2024-01-01T10:00:00Z")] = Except.ok (-1) := rfl
example : compute_delay_minutes [("dep", Json.str "2024-01-01T10:05:00Z"), ("schDep", Json.str "2024-01-01T10:00:00Z")] = Except.ok 5 := rfl
example : compute_delay_minutes [] = Except.ok 0 := rfl

/-! ## Helper lemmas -/

/-- On a well-formed timestamp field, `_to_datetime` returns exactly the
spec's timestamp value. -/
lemma to_datetime_wf (st : JsonDict) (k : String) (h : tsFieldWF st k = true) :
    to_datetime (pyGet st k) = Except.ok (specTimestampValue st k) := by
  cases hg : dictGet st k with
  | none => simp [to_datetime, specTimestampValue, pyGet, hg, pyFalsy]
  | some v =>
    cases v with
    | str s =>
        by_cases hs : s = ""
        · subst hs
          simp [to_datetime, specTimestampValue, pyGet, hg, pyFalsy]
        · have hp : (parseIso s).isSome = true := by
            unfold tsFieldWF at h
            rw [hg] at h
            rw [Bool.or_eq_true] at h
            rcases h with h2 | h2
            · exact absurd (by simpa using h2) hs
            · exact h2
          rcases hq : parseIso s with _ | dt
          · rw [hq] at hp; simp at hp
          · simp [to_datetime, specTimestampValue, pyGet, hg, pyFalsy, hs, hq]
    | null => simp [to_datetime, specTimestampValue, pyGet, hg, pyFalsy]
    | bool b => unfold tsFieldWF at h; rw [hg] at h; simp at h
    | num n => unfold tsFieldWF at h; rw [hg] at h; simp at h
    | arr l => unfold tsFieldWF at h; rw [hg] at h; simp at h
    | obj f => unfold tsFieldWF at h; rw [hg] at h; simp at h

/-- A candidate that does not fail carries a JSON-object payload. -/
lemma candFails_false_obj (c : Candidate) (h : candFails c = false) :
    ∃ fields, c = Candidate.payload (Json.obj fields) := by
  rcases c with _ | j
  · simp [candFails] at h
  · cases j <;> first
      | exact ⟨_, rfl⟩
      | simp [candFails] at h

/-- A failing candidate at the head of the loop records its failure and
falls through to the remaining candidates. -/
lemma fetch_json_go_fail_head (c : Candidate) (h : candFails c = true)
    (rest : List Candidate) (i : Nat) (le : Option UpstreamFailure) :
    fetch_json_go (c :: rest) i le = fetch_json_go rest (i + 1) (some (candFailure c i)) := by
  rcases c with _ | j
  · rfl
  · cases j <;> simp_all [candFails, candFailure, fetch_json_go]

/-- On two failing candidates, `_fetch_json` raises carrying the second
(last) failure. -/
lemma fetch_json_two_fail (c1 c2 : Candidate)
    (h1 : candFails c1 = true) (h2 : candFails c2 = true) :
    fetch_json [c1, c2] = Except.error (some (candFailure c2 1)) := by
  unfold fetch_json
  rw [fetch_json_go_fail_head c1 h1, fetch_json_go_fail_head c2 h2]
  rfl

lemma char_ofNat_toNat_lt (n : Nat) (h : n < 55296) : (Char.ofNat n).toNat = n := by
  unfold Char.ofNat
  rw [dif_pos (Or.inl h)]
  rfl

lemma asciiUpperChar_toNat (c : Char) :
    (asciiUpperChar c).toNat =
      if 97 ≤ c.toNat ∧ c.toNat ≤ 122 then c.toNat - 32 else c.toNat := by
  unfold asciiUpperChar
  split
  · next h => exact char_ofNat_toNat_lt _ (by omega)
  · rfl

lemma asciiUpperChar_eq_self (c : Char) (h : ¬(97 ≤ c.toNat ∧ c.toNat ≤ 122)) :
    asciiUpperChar c = c := by
  unfold asciiUpperChar
  exact if_neg h

lemma asciiUpperChar_idem (c : Char) :
    asciiUpperChar (asciiUpperChar c) = asciiUpperChar c := by
  by_cases h : 97 ≤ c.toNat ∧ c.toNat ≤ 122
  · refine asciiUpperChar_eq_self _ ?_
    rw [asciiUpperChar_toNat, if_pos h]
    omega
  · rw [asciiUpperChar_eq_self c h, asciiUpperChar_eq_self c h]

lemma isLetterChar_upper (c : Char) :
    isLetterChar (asciiUpperChar c) = isLetterChar c := by
  unfold isLetterChar
  rw [asciiUpperChar_toNat]
  split
  · next h => rw [decide_eq_decide]; omega
  · rfl

lemma pyUpper_data (s : String) : (pyUpper s).data = s.data.map asciiUpperChar := rfl

lemma pyUpper_idem (s : String) : pyUpper (pyUpper s) = pyUpper s := by
  apply String.ext
  rw [pyUpper_data, pyUpper_data, List.map_map]
  exact List.map_congr_left (fun a _ => asciiUpperChar_idem a)

lemma validStationCode_upper (s : String) :
    validStationCode (pyUpper s) = validStationCode s := by
  unfold validStationCode
  rw [pyUpper_data, List.length_map, List.all_map]
  have hp : (isLetterChar ∘ asciiUpperChar) = isLetterChar := funext isLetterChar_upper
  rw [hp]

/-- The handler depends on the station code only through its uppercase
normalization. -/
lemma handler_upper (tn sc : String) (fetch : Fetch) (now : String) :
    get_train_station_info tn sc fetch now =
      get_train_station_info tn (pyUpper sc) fetch now := by
  simp only [get_train_station_info, pyUpper_idem]

lemma firstChar_append (a b : String) (c : Char) (h : firstChar a = some c) :
    firstChar (a ++ b) = some c := by
  unfold firstChar at *
  rw [String.data_append]
  cases hd : a.data with
  | nil => rw [hd] at h; simp at h
  | cons x tl =>
      rw [hd] at h
      simp at h
      simp [h]

lemma ne_of_firstChar (a b : String) (h : firstChar a ≠ firstChar b) : a ≠ b :=
  fun e => h (by rw [e])

lemma dictGet_self (k : String) (v : Json) (rest : JsonDict) :
    dictGet ((k, v) :: rest) k = some v := by
  simp [dictGet, List.find?]

lemma dictGet_nil (k : String) : dictGet [] k = none := rfl

/-- The two upstream paths used by the handler never coincide. -/
lemma trains_path_ne_stations_path (x y : String) :
    ("/v3/trains/" ++ x) ≠ ("/v3/stations/" ++ y) := by
  intro e
  have h := congrArg String.data e
  rw [String.data_append, String.data_append] at h
  have h1 : "/v3/trains/".data = ['/', 'v', '3', '/', 't', 'r', 'a', 'i', 'n', 's', '/'] := rfl
  have h2 : "/v3/stations/".data = ['/', 'v', '3', '/', 's', 't', 'a', 't', 'i', 'o', 'n', 's', '/'] := rfl
  rw [h1, h2] at h
  simp at h

/-! ## Claim theorems -/

/-- C1: `_compute_delay_minutes` coincides with the spec's reference
definition of `computeDelayMinutes` on every station-visit record whose
timestamp fields are well formed (absent, null, empty, or valid
ISO-8601): departure pair first, else arrival pair, else 0, with
floor-division semantics and naive timestamps read as UTC; moreover an
actual departure 1 second before schedule yields -1, not 0. -/
theorem delay_matches_spec_reference :
    (∀ st, visitWF st = true → compute_delay_minutes st = Except.ok (specDelayMinutes st)) ∧
    compute_delay_minutes
        [("dep", Json.str "2024-01-01T09:59:59"), ("schDep", Json.str "2024-01-01T10:00:00Z")] =
      Except.ok (-1) := by
  constructor
  · intro st h
    simp only [visitWF, Bool.and_eq_true] at h
    obtain ⟨⟨⟨h1, h2⟩, h3⟩, h4⟩ := h
    have e1 := to_datetime_wf st "dep" h1
    have e2 := to_datetime_wf st "schDep" h2
    have e3 := to_datetime_wf st "arr" h3
    have e4 := to_datetime_wf st "schArr" h4
    cases hd : specTimestampValue st "dep" <;>
      cases hs : specTimestampValue st "schDep" <;>
        cases ha : specTimestampValue st "arr" <;>
          cases hsa : specTimestampValue st "schArr" <;>
            simp [compute_delay_minutes, specDelayMinutes, e1, e2, e3, e4, hd, hs, ha, hsa]
  · rfl

/-- Witness for C1: a concrete well-formed visit (1-second-early
departure, naive actual vs aware scheduled timestamp) on which both
definitions give -1. -/
theorem delay_matches_spec_reference_witness :
    visitWF [("dep", Json.str "2024-01-01T09:59:59"),
             ("schDep", Json.str "2024-01-01T10:00:00Z")] = true ∧
    compute_delay_minutes
        [("dep", Json.str "2024-01-01T09:59:59"), ("schDep", Json.str "2024-01-01T10:00:00Z")] =
      Except.ok (specDelayMinutes
        [("dep", Json.str "2024-01-01T09:59:59"), ("schDep", Json.str "2024-01-01T10:00:00Z")]) :=
  ⟨by decide, delay_matches_spec_reference.1 _ (by decide)⟩

/-- C3: `_fetch_json` tries the candidates in declared order; whatever
way the primary candidate fails (transport/status/parse failure or a
non-object body), a fallback JSON-object payload is returned; and a
JSON-object payload is returned immediately, whatever comes after it. -/
theorem upstream_failover :
    (∀ c fields, candFails c = true →
        fetch_json [c, Candidate.payload (Json.obj fields)] = Except.ok fields) ∧
    (∀ fields rest, fetch_json (Candidate.payload (Json.obj fields) :: rest) = Except.ok fields) := by
  constructor
  · intro c fields hc
    rcases c with _ | j
    · rfl
    · cases j <;> simp_all [candFails, fetch_json, fetch_json_go]
  · intro fields rest
    rfl

/-- Witness for C3: a transport failure on the primary followed by an
object payload on the fallback yields the fallback's object. -/
theorem upstream_failover_witness :
    candFails Candidate.failure = true ∧
    fetch_json [Candidate.failure, Candidate.payload (Json.obj sampleListing)] =
      Except.ok sampleListing :=
  ⟨rfl, upstream_failover.1 Candidate.failure sampleListing rfl⟩

/-- C4: with the two configured base URLs, `_fetch_json` raises the
upstream-unavailable error iff both candidates fail; when it raises, the
error carries the last (second) underlying failure as its cause; and the
handler maps the raised error to HTTP 502. -/
theorem upstream_total_failure :
    (∀ c1 c2, (∃ e, fetch_json [c1, c2] = Except.error e) ↔
        (candFails c1 = true ∧ candFails c2 = true)) ∧
    (∀ c1 c2, candFails c1 = true → candFails c2 = true →
        fetch_json [c1, c2] = Except.error (some (candFailure c2 1))) ∧
    (∀ tn sc now e, get_train_station_info tn sc (fun _ => Except.error e) now =
        HandlerResult.httpError 502 "Upstream train status providers are unavailable") := by
  refine ⟨?_, fetch_json_two_fail, ?_⟩
  · intro c1 c2
    constructor
    · rintro ⟨e, he⟩
      by_cases h1 : candFails c1 = true
      · by_cases h2 : candFails c2 = true
        · exact ⟨h1, h2⟩
        · exfalso
          obtain ⟨f, rfl⟩ := candFails_false_obj c2 (Bool.not_eq_true _ ▸ h2)
          rw [fetch_json, fetch_json_go_fail_head c1 h1] at he
          simp [fetch_json_go] at he
      · exfalso
        obtain ⟨f, rfl⟩ := candFails_false_obj c1 (Bool.not_eq_true _ ▸ h1)
        simp [fetch_json, fetch_json_go] at he
    · rintro ⟨h1, h2⟩
      exact ⟨_, fetch_json_two_fail c1 c2 h1 h2⟩
  · intro tn sc now e
    rfl

/-- Witness for C4: both hosts unreachable on the primary and a non-object
body on the fallback: the fetch fails carrying the fallback's shape
failure, and the handler returns 502. -/
theorem upstream_total_failure_witness :
    candFails Candidate.failure = true ∧
    candFails (Candidate.payload (Json.arr [])) = true ∧
    fetch_json [Candidate.failure, Candidate.payload (Json.arr [])] =
      Except.error (some (UpstreamFailure.unexpectedShape 1)) ∧
    get_train_station_info "123" "WAS" (fun _ => Except.error none) "T0" =
      HandlerResult.httpError 502 "Upstream train status providers are unavailable" :=
  ⟨rfl, rfl,
   upstream_total_failure.2.1 Candidate.failure (Candidate.payload (Json.arr [])) rfl rfl,
   upstream_total_failure.2.2 "123" "WAS" "T0" none⟩

/-- C6 (code bug): with valid path parameters (train number "123",
station code "WAS") and an upstream payload whose matched station visit
holds the malformed timestamp string "garbage" in `dep`, the request
handler raises an uncaught exception (HTTP 500) instead of a documented
status: the code does not satisfy the claimed no-unhandled-fault
property for arbitrary upstream payload contents. -/
theorem handler_fault_on_malformed_timestamp :
    route "123" "WAS" malformedTimestampFetch "2024-01-01T00:00:00+00:00" =
      HandlerResult.fault := rfl

/-- C7: when either path parameter fails its pattern, the request is
rejected with a client-error status without the handler running: the
outcome is independent of the fetch behaviour (hence no upstream fetch
is attempted) and of the clock. -/
theorem validation_precedes_fetch :
    ∀ tn sc, (validTrainNumber tn && validStationCode sc) = false →
      ∀ fetch now,
        route tn sc fetch now =
            HandlerResult.httpError 422 "path parameter failed pattern validation" ∧
          ∀ fetch2 now2, route tn sc fetch now = route tn sc fetch2 now2 := by
  intro tn sc h fetch now
  refine ⟨by simp [route, h], ?_⟩
  intro fetch2 now2
  simp [route, h]

/-- Witness for C7: the malformed train number "12a" is rejected with the
validation error for any fetch behaviour. -/
theorem validation_precedes_fetch_witness :
    (validTrainNumber "12a" && validStationCode "WAS") = false ∧
    route "12a" "WAS" sampleFetch "T0" =
      HandlerResult.httpError 422 "path parameter failed pattern validation" :=
  ⟨by decide, (validation_precedes_fetch "12a" "WAS" (by decide) sampleFetch "T0").1⟩

/-! ## Flow lemmas for the single-station oracle family -/

/-- With a listing exposing `sd` for the normalized station: an absent
`trains` key defaults to the empty list, so no identifier matches and the
handler reports the train-not-found 404. -/
lemma handler_trains_absent (tn sc now : String) (sd : JsonDict)
    (h : dictGet sd "trains" = none) (detail : JsonDict) :
    get_train_station_info tn sc
        (pipelineFetch ("/v3/stations/" ++ pyUpper sc)
          (Except.ok [(pyUpper sc, Json.obj sd)]) (Except.ok detail)) now =
      HandlerResult.httpError 404
        ("Train " ++ tn ++ " not found for station " ++ pyUpper sc) := by
  simp [get_train_station_info, pipelineFetch, pyGet, pyGetD, dictGet_self, h,
    findMatchedTrainId]

/-- With a list-valued `trains` key and no matching identifier, the
handler reports the train-not-found 404. -/
lemma handler_trains_nomatch (tn sc now : String) (sd : JsonDict) (l : List Json)
    (h : dictGet sd "trains" = some (Json.arr l))
    (hm : findMatchedTrainId l tn = none) (detail : JsonDict) :
    get_train_station_info tn sc
        (pipelineFetch ("/v3/stations/" ++ pyUpper sc)
          (Except.ok [(pyUpper sc, Json.obj sd)]) (Except.ok detail)) now =
      HandlerResult.httpError 404
        ("Train " ++ tn ++ " not found for station " ++ pyUpper sc) := by
  simp [get_train_station_info, pipelineFetch, pyGet, pyGetD, dictGet_self, h, hm]

/-- With a list-valued `trains` key, a matching identifier, and an empty
detail payload, the handler reports the no-active-detail-feed 404. -/
lemma handler_trains_match_empty_detail (tn sc now : String) (sd : JsonDict)
    (l : List Json) (tid : String)
    (h : dictGet sd "trains" = some (Json.arr l))
    (hm : findMatchedTrainId l tn = some tid) :
    get_train_station_info tn sc
        (pipelineFetch ("/v3/stations/" ++ pyUpper sc)
          (Except.ok [(pyUpper sc, Json.obj sd)]) (Except.ok [])) now =
      HandlerResult.httpError 404
        ("Train " ++ tn ++ " has no active detail feed") := by
  simp [get_train_station_info, pipelineFetch, pyGet, pyGetD, dictGet_self, h, hm,
    trains_path_ne_stations_path, find_train_entry, dictGet_nil]

/-- With a `trains` value that is present but not a list, the handler
reports the no-active-train-data 404. -/
lemma handler_trains_nonlist (tn sc now : String) (sd : JsonDict) (v : Json)
    (h : dictGet sd "trains" = some v) (hv : ∀ l, v ≠ Json.arr l) (detail : JsonDict) :
    get_train_station_info tn sc
        (pipelineFetch ("/v3/stations/" ++ pyUpper sc)
          (Except.ok [(pyUpper sc, Json.obj sd)]) (Except.ok detail)) now =
      HandlerResult.httpError 404 "Station has no active train data" := by
  cases v with
  | arr l => exact absurd rfl (hv l)
  | null => simp [get_train_station_info, pipelineFetch, pyGet, pyGetD, dictGet_self, h]
  | bool b => simp [get_train_station_info, pipelineFetch, pyGet, pyGetD, dictGet_self, h]
  | num n => simp [get_train_station_info, pipelineFetch, pyGet, pyGetD, dictGet_self, h]
  | str s => simp [get_train_station_info, pipelineFetch, pyGet, pyGetD, dictGet_self, h]
  | obj f => simp [get_train_station_info, pipelineFetch, pyGet, pyGetD, dictGet_self, h]

/-- C2: train-identifier matching takes, in order, the first listed
identifier that is a string whose segment before the first "-" equals
the requested train number by exact string equality ("123-45" matches
"123" but neither "1234" nor "023"); when no identifier matches, the
handler fails with the train-not-found-for-station 404. -/
theorem train_id_matching :
    findMatchedTrainId [Json.str "123-45"] "123" = some "123-45" ∧
    findMatchedTrainId [Json.str "123-45"] "1234" = none ∧
    findMatchedTrainId [Json.str "123-45"] "023" = none ∧
    (∀ s ids tn, splitHead s = tn → findMatchedTrainId (Json.str s :: ids) tn = some s) ∧
    (∀ s ids tn, splitHead s ≠ tn →
      findMatchedTrainId (Json.str s :: ids) tn = findMatchedTrainId ids tn) ∧
    (∀ tn sc ids tp now, findMatchedTrainId ids tn = none →
      get_train_station_info tn sc
          (pipelineFetch ("/v3/stations/" ++ pyUpper sc)
            (Except.ok [(pyUpper sc, Json.obj [("trains", Json.arr ids)])])
            (Except.ok tp)) now =
        HandlerResult.httpError 404
          ("Train " ++ tn ++ " not found for station " ++ pyUpper sc)) := by
  refine ⟨rfl, rfl, rfl, ?_, ?_, ?_⟩
  · intro s ids tn h
    simp [findMatchedTrainId, List.findSome?, h]
  · intro s ids tn h
    simp [findMatchedTrainId, List.findSome?, h]
  · intro tn sc ids tp now h
    exact handler_trains_nomatch tn sc now [("trains", Json.arr ids)] ids
      (dictGet_self _ _ _) h tp

/-- Witness for C2: no identifier in the listing `["456-2"]` matches
train number 123, and the handler 404s accordingly. -/
theorem train_id_matching_witness :
    findMatchedTrainId [Json.str "456-2"] "123" = none ∧
    splitHead "123-45" = "123" ∧
    get_train_station_info "123" "WAS"
        (pipelineFetch ("/v3/stations/" ++ pyUpper "WAS")
          (Except.ok [(pyUpper "WAS", Json.obj [("trains", Json.arr [Json.str "456-2"])])])
          (Except.ok [])) "T0" =
      HandlerResult.httpError 404
        ("Train " ++ "123" ++ " not found for station " ++ pyUpper "WAS") :=
  ⟨rfl, rfl, train_id_matching.2.2.2.2.2 "123" "WAS" [Json.str "456-2"] [] "T0" rfl⟩

/-- C8 counterexample: here the detail payload holds a non-empty entry
list under the matched train *identifier* "123-1" — the key the claim
says is used — yet the handler fails with the no-active-detail-feed 404,
because the code actually indexes the detail payload by the requested
train *number*. -/
theorem detail_keyed_by_identifier_refuted :
    dictGet idKeyedDetail "123-1" = some (Json.arr [sampleEntry]) ∧
    route "123" "WAS" idKeyedDetailFetch "T0" =
      HandlerResult.httpError 404 "Train 123 has no active detail feed" :=
  ⟨rfl, rfl⟩

/-- C8 (amended): after fetching the detail feed for the matched train
identifier, the handler selects the first entry of the list stored under
the requested *train number* key of the detail payload; if that key is
absent, holds an empty list, or holds a non-list, the handler fails with
the no-active-detail-feed 404. -/
theorem detail_entry_resolution :
    (∀ tp tn e rest, dictGet tp tn = some (Json.arr (e :: rest)) →
        find_train_entry tp tn = some e) ∧
    (∀ tp tn, dictGet tp tn = none → find_train_entry tp tn = none) ∧
    (∀ tp tn, dictGet tp tn = some (Json.arr []) → find_train_entry tp tn = none) ∧
    (∀ tn sc ids tid tp now, findMatchedTrainId ids tn = some tid →
        find_train_entry tp tn = none →
        get_train_station_info tn sc
            (pipelineFetch ("/v3/stations/" ++ pyUpper sc)
              (Except.ok [(pyUpper sc, Json.obj [("trains", Json.arr ids)])])
              (Except.ok tp)) now =
          HandlerResult.httpError 404
            ("Train " ++ tn ++ " has no active detail feed")) := by
  refine ⟨?_, ?_, ?_, ?_⟩
  · intro tp tn e rest h
    simp [find_train_entry, h]
  · intro tp tn h
    simp [find_train_entry, h]
  · intro tp tn h
    simp [find_train_entry, h]
  · intro tn sc ids tid tp now h1 h2
    simp [get_train_station_info, pipelineFetch, pyGet, pyGetD, dictGet_self, h1, h2,
      trains_path_ne_stations_path]

/-- Witness for C8's amended theorem: concrete instances of all four
conjuncts. -/
theorem detail_entry_resolution_witness :
    find_train_entry sampleDetail "123" = some sampleEntry ∧
    find_train_entry [] "123" = none ∧
    get_train_station_info "123" "WAS"
        (pipelineFetch ("/v3/stations/" ++ pyUpper "WAS")
          (Except.ok [(pyUpper "WAS", Json.obj [("trains", Json.arr [Json.str "123-1"])])])
          (Except.ok [])) "T0" =
      HandlerResult.httpError 404
        ("Train " ++ "123" ++ " has no active detail feed") :=
  ⟨detail_entry_resolution.1 sampleDetail "123" sampleEntry [] rfl,
   detail_entry_resolution.2.1 [] "123" rfl,
   detail_entry_resolution.2.2.2 "123" "WAS" [Json.str "123-1"] "123-1" [] "T0" rfl rfl⟩

/-- C9: with a station entry `sd` for the normalized station, an absent
`trains` key is treated as the empty train list (producing the
train-not-found-for-station 404), while the distinct
no-active-train-data 404 occurs exactly when a `trains` value is present
but is not a list. -/
theorem trains_field_handling :
    ∀ tn sc now (sd : JsonDict),
      (dictGet sd "trains" = none →
        get_train_station_info tn sc
            (pipelineFetch ("/v3/stations/" ++ pyUpper sc)
              (Except.ok [(pyUpper sc, Json.obj sd)]) (Except.ok [])) now =
          HandlerResult.httpError 404
            ("Train " ++ tn ++ " not found for station " ++ pyUpper sc)) ∧
      (get_train_station_info tn sc
            (pipelineFetch ("/v3/stations/" ++ pyUpper sc)
              (Except.ok [(pyUpper sc, Json.obj sd)]) (Except.ok [])) now =
          HandlerResult.httpError 404 "Station has no active train data" ↔
        ∃ v, dictGet sd "trains" = some v ∧ ∀ l, v ≠ Json.arr l) := by
  intro tn sc now sd
  refine ⟨fun h => handler_trains_absent tn sc now sd h [], ?_, ?_⟩
  · intro h
    cases hv : dictGet sd "trains" with
    | none =>
        exfalso
        rw [handler_trains_absent tn sc now sd hv []] at h
        injection h with h1 h2
        have hT : firstChar ("Train " ++ tn ++ " not found for station " ++ pyUpper sc) =
            some 'T' :=
          firstChar_append _ _ _ (firstChar_append _ _ _ (firstChar_append _ _ _ rfl))
        rw [h2] at hT
        exact absurd hT (by decide)
    | some v =>
        cases v with
        | arr l =>
            exfalso
            cases hm : findMatchedTrainId l tn with
            | none =>
                rw [handler_trains_nomatch tn sc now sd l hv hm []] at h
                injection h with h1 h2
                have hT : firstChar ("Train " ++ tn ++ " not found for station " ++ pyUpper sc) =
                    some 'T' :=
                  firstChar_append _ _ _ (firstChar_append _ _ _ (firstChar_append _ _ _ rfl))
                rw [h2] at hT
                exact absurd hT (by decide)
            | some tid =>
                rw [handler_trains_match_empty_detail tn sc now sd l tid hv hm] at h
                injection h with h1 h2
                have hT : firstChar ("Train " ++ tn ++ " has no active detail feed") =
                    some 'T' :=
                  firstChar_append _ _ _ (firstChar_append _ _ _ rfl)
                rw [h2] at hT
                exact absurd hT (by decide)
        | null => exact ⟨Json.null, rfl, fun l => by simp⟩
        | bool b => exact ⟨Json.bool b, rfl, fun l => by simp⟩
        | num n => exact ⟨Json.num n, rfl, fun l => by simp⟩
        | str s => exact ⟨Json.str s, rfl, fun l => by simp⟩
        | obj f => exact ⟨Json.obj f, rfl, fun l => by simp⟩
  · rintro ⟨v, hv, hna⟩
    exact handler_trains_nonlist tn sc now sd v hv hna []

/-- Witness for C9: a numeric `trains` value produces the
no-active-train-data 404, and an `sd` without a `trains` key produces
the train-not-found 404. -/
theorem trains_field_handling_witness :
    get_train_station_info "123" "WAS"
        (pipelineFetch ("/v3/stations/" ++ pyUpper "WAS")
          (Except.ok [(pyUpper "WAS", Json.obj [("trains", Json.num 0)])])
          (Except.ok [])) "T0" =
      HandlerResult.httpError 404 "Station has no active train data" ∧
    get_train_station_info "123" "WAS"
        (pipelineFetch ("/v3/stations/" ++ pyUpper "WAS")
          (Except.ok [(pyUpper "WAS", Json.obj [("name", Json.str "Washington")])])
          (Except.ok [])) "T0" =
      HandlerResult.httpError 404
        ("Train " ++ "123" ++ " not found for station " ++ pyUpper "WAS") :=
  ⟨((trains_field_handling "123" "WAS" "T0" [("trains", Json.num 0)]).2).mpr
      ⟨Json.num 0, rfl, fun l => by simp⟩,
   (trains_field_handling "123" "WAS" "T0" [("name", Json.str "Washington")]).1 rfl⟩

/-! ## Inversion of a successful request -/

/-- Everything that must have happened for the handler to answer 200:
the chain of fetches and lookups, and the exact response assembled from
the train entry `te` and the station visit `se`. -/
lemma handler_ok_elim (tn sc : String) (fetch : Fetch) (now : String)
    (r : TrainStationResponse)
    (h : get_train_station_info tn sc fetch now = HandlerResult.ok r) :
    ∃ sp sd ids tid tp te stations se delay,
      fetch ("/v3/stations/" ++ pyUpper sc) = Except.ok sp ∧
      pyGet sp (pyUpper sc) = Json.obj sd ∧
      pyGetD sd "trains" (Json.arr []) = Json.arr ids ∧
      findMatchedTrainId ids tn = some tid ∧
      fetch ("/v3/trains/" ++ tid) = Except.ok tp ∧
      find_train_entry tp tn = some (Json.obj te) ∧
      pyIter (pyGetD te "stations" (Json.arr [])) = Except.ok stations ∧
      findStationEntry stations (pyUpper sc) = some se ∧
      compute_delay_minutes se = Except.ok delay ∧
      r = { trainNumber := pyStr (pyOr (pyGet te "trainNumRaw") (Json.str tn)),
            origin := pyStr (pyOr (pyGet te "origCode") (Json.str "")),
            destination := pyStr (pyOr (pyGet te "destCode") (Json.str "")),
            currentStation := pyUpper sc,
            queriedStation := pyUpper sc,
            delayMinutes := delay,
            status := pyStr (pyOr (pyGet se "status") (Json.str "Unknown")),
            asOf := asOfValue te now } := by
  unfold get_train_station_info at h
  cases h1 : fetch ("/v3/stations/" ++ pyUpper sc) with
  | error e => rw [h1] at h; exact HandlerResult.noConfusion h
  | ok sp =>
  rw [h1] at h
  dsimp only at h
  cases h2 : pyGet sp (pyUpper sc) with
  | null => rw [h2] at h; exact HandlerResult.noConfusion h
  | bool b => rw [h2] at h; exact HandlerResult.noConfusion h
  | num n => rw [h2] at h; exact HandlerResult.noConfusion h
  | str s => rw [h2] at h; exact HandlerResult.noConfusion h
  | arr l => rw [h2] at h; exact HandlerResult.noConfusion h
  | obj sd =>
  rw [h2] at h
  dsimp only at h
  cases h3 : pyGetD sd "trains" (Json.arr []) with
  | null => rw [h3] at h; exact HandlerResult.noConfusion h
  | bool b => rw [h3] at h; exact HandlerResult.noConfusion h
  | num n => rw [h3] at h; exact HandlerResult.noConfusion h
  | str s => rw [h3] at h; exact HandlerResult.noConfusion h
  | obj f => rw [h3] at h; exact HandlerResult.noConfusion h
  | arr ids =>
  rw [h3] at h
  dsimp only at h
  cases h4 : findMatchedTrainId ids tn with
  | none => rw [h4] at h; exact HandlerResult.noConfusion h
  | some tid =>
  rw [h4] at h
  dsimp only at h
  cases h5 : fetch ("/v3/trains/" ++ tid) with
  | error e => rw [h5] at h; exact HandlerResult.noConfusion h
  | ok tp =>
  rw [h5] at h
  dsimp only at h
  cases h6 : find_train_entry tp tn with
  | none => rw [h6] at h; exact HandlerResult.noConfusion h
  | some entryJson =>
  rw [h6] at h
  cases entryJson with
  | null => exact HandlerResult.noConfusion h
  | bool b => exact HandlerResult.noConfusion h
  | num n => exact HandlerResult.noConfusion h
  | str s => exact HandlerResult.noConfusion h
  | arr l => exact HandlerResult.noConfusion h
  | obj te =>
  dsimp only at h
  cases h7 : pyIter (pyGetD te "stations" (Json.arr [])) with
  | error e => rw [h7] at h; exact HandlerResult.noConfusion h
  | ok stations =>
  rw [h7] at h
  dsimp only at h
  cases h8 : findStationEntry stations (pyUpper sc) with
  | none => rw [h8] at h; exact HandlerResult.noConfusion h
  | some se =>
  rw [h8] at h
  dsimp only at h
  cases h9 : compute_delay_minutes se with
  | error e => rw [h9] at h; exact HandlerResult.noConfusion h
  | ok delay =>
  rw [h9] at h
  dsimp only at h
  exact ⟨sp, sd, ids, tid, tp, te, stations, se, delay,
    rfl, h2, h3, h4, h5, h6, h7, h8, h9, (HandlerResult.ok.inj h).symm⟩

lemma pyStr_pyOr_default (d : JsonDict) (k : String) (dflt : String)
    (h : dictGet d k = none ∨ dictGet d k = some Json.null ∨
      dictGet d k = some (Json.str "")) :
    pyStr (pyOr (pyGet d k) (Json.str dflt)) = dflt := by
  rcases h with h | h | h <;> simp [pyGet, h, pyOr, pyFalsy, pyStr]

lemma pyStr_pyOr_nonempty (d : JsonDict) (k : String) (dflt : String) (s : String)
    (h : dictGet d k = some (Json.str s)) (hs : s ≠ "") :
    pyStr (pyOr (pyGet d k) (Json.str dflt)) = s := by
  simp [pyGet, h, pyOr, pyFalsy, hs, pyStr]

/-- C5: the routed endpoint gives the same outcome for any letter-casing
of the station code as for its uppercase form (for every train number,
fetch behaviour and clock), and in every success response
`currentStation` is the uppercase normalization of the queried code with
`queriedStation` equal to it by construction. -/
theorem station_code_case_insensitivity :
    (∀ tn sc fetch now, route tn sc fetch now = route tn (pyUpper sc) fetch now) ∧
    (∀ tn sc fetch now r, get_train_station_info tn sc fetch now = HandlerResult.ok r →
        r.currentStation = pyUpper sc ∧ r.queriedStation = r.currentStation) := by
  constructor
  · intro tn sc fetch now
    unfold route
    rw [validStationCode_upper, handler_upper tn sc fetch now]
  · intro tn sc fetch now r h
    obtain ⟨sp, sd, ids, tid, tp, te, stations, se, delay,
      _, _, _, _, _, _, _, _, _, hr⟩ := handler_ok_elim tn sc fetch now r h
    rw [hr]
    exact ⟨rfl, rfl⟩

/-- Witness for C5: the lowercase query "was" behaves like "WAS" on the
end-to-end scenario, and its success response has
currentStation = queriedStation = "WAS". -/
theorem station_code_case_insensitivity_witness :
    route "123" "was" sampleFetch "T0" = route "123" (pyUpper "was") sampleFetch "T0" ∧
    (sampleResponse.currentStation = pyUpper "was" ∧
      sampleResponse.queriedStation = sampleResponse.currentStation) :=
  ⟨station_code_case_insensitivity.1 "123" "was" sampleFetch "T0",
   station_code_case_insensitivity.2 "123" "was" sampleFetch "T0" sampleResponse rfl⟩

/-- C10: in every 200 response, assembled from the detail entry `te` and
matched station visit `se` actually fetched: origin/destination default
to "" when origCode/destCode are absent, null or empty; status defaults
to "Unknown" when the visit's status is absent, null or empty; and
trainNumber is the entry's raw train-number label when present and
non-empty, else the requested train number. -/
theorem success_field_defaults :
    ∀ tn sc fetch now r, get_train_station_info tn sc fetch now = HandlerResult.ok r →
      ∃ tid tp te stations se,
        fetch ("/v3/trains/" ++ tid) = Except.ok tp ∧
        find_train_entry tp tn = some (Json.obj te) ∧
        pyIter (pyGetD te "stations" (Json.arr [])) = Except.ok stations ∧
        findStationEntry stations (pyUpper sc) = some se ∧
        ((dictGet te "origCode" = none ∨ dictGet te "origCode" = some Json.null ∨
            dictGet te "origCode" = some (Json.str "")) → r.origin = "") ∧
        ((dictGet te "destCode" = none ∨ dictGet te "destCode" = some Json.null ∨
            dictGet te "destCode" = some (Json.str "")) → r.destination = "") ∧
        ((dictGet se "status" = none ∨ dictGet se "status" = some Json.null ∨
            dictGet se "status" = some (Json.str "")) → r.status = "Unknown") ∧
        (∀ s, dictGet te "trainNumRaw" = some (Json.str s) → s ≠ "" →
            r.trainNumber = s) ∧
        ((dictGet te "trainNumRaw" = none ∨ dictGet te "trainNumRaw" = some Json.null ∨
            dictGet te "trainNumRaw" = some (Json.str "")) → r.trainNumber = tn) := by
  intro tn sc fetch now r h
  obtain ⟨sp, sd, ids, tid, tp, te, stations, se, delay,
    _, _, _, _, h5, h6, h7, h8, _, hr⟩ := handler_ok_elim tn sc fetch now r h
  subst hr
  refine ⟨tid, tp, te, stations, se, h5, h6, h7, h8, ?_, ?_, ?_, ?_, ?_⟩
  · intro hc
    exact pyStr_pyOr_default te "origCode" "" hc
  · intro hc
    exact pyStr_pyOr_default te "destCode" "" hc
  · intro hc
    exact pyStr_pyOr_default se "status" "Unknown" hc
  · intro s hs hne
    exact pyStr_pyOr_nonempty te "trainNumRaw" tn s hs hne
  · intro hc
    exact pyStr_pyOr_default te "trainNumRaw" tn hc

/-- Witness for C10: on a success whose entry and visit omit all optional
fields, the defaults are observable: origin = destination = "",
status = "Unknown", trainNumber = requested "123". -/
theorem success_field_defaults_witness :
    ∃ tid tp te stations se,
      defaultsFetch ("/v3/trains/" ++ tid) = Except.ok tp ∧
      find_train_entry tp "123" = some (Json.obj te) ∧
      pyIter (pyGetD te "stations" (Json.arr [])) = Except.ok stations ∧
      findStationEntry stations (pyUpper "WAS") = some se ∧
      ((dictGet te "origCode" = none ∨ dictGet te "origCode" = some Json.null ∨
          dictGet te "origCode" = some (Json.str "")) → defaultsResponse.origin = "") ∧
      ((dictGet te "destCode" = none ∨ dictGet te "destCode" = some Json.null ∨
          dictGet te "destCode" = some (Json.str "")) → defaultsResponse.destination = "") ∧
      ((dictGet se "status" = none ∨ dictGet se "status" = some Json.null ∨
          dictGet se "status" = some (Json.str "")) → defaultsResponse.status = "Unknown") ∧
      (∀ s, dictGet te "trainNumRaw" = some (Json.str s) → s ≠ "" →
          defaultsResponse.trainNumber = s) ∧
      ((dictGet te "trainNumRaw" = none ∨ dictGet te "trainNumRaw" = some Json.null ∨
          dictGet te "trainNumRaw" = some (Json.str "")) → defaultsResponse.trainNumber = "123") :=
  success_field_defaults "123" "WAS" defaultsFetch "T0" defaultsResponse rfl
